import Mathlib

/-!
Verification of the log4rs-gelf adapter (`src/appender.rs`, `src/file.rs`,
`src/lib.rs`).

A shallow embedding of the crate's three source files:

* `appender.rs` — `BufferAppenderBuilder` (fluent configuration builder, its
  `Default` impl and setters), `build()` handing a configuration to the
  external `gelf_logger` collaborator, and the `Append` impl (`append`/`flush`)
  of `BufferAppender`;
* `file.rs` — the `Config` struct derived with serde `Deserialize`, the
  `BufferAppenderDeserializer` mapping a parsed `Config` onto the builder, and
  the `deserializers()` registry.

Modelling conventions:

* Rust `u16`/`u64`/`usize` values are `Nat` (the code never does arithmetic on
  them, so no wraparound can occur);
* `std::time::Duration` is a `Nat` of milliseconds (`from_millis n = n`,
  `from_secs v = 1000 * v` — exact, no overflow at the values involved);
* `BTreeMap` is an association list with map semantics: `insertAL` overwrites
  an existing binding of the same key, `extendAL` folds `insertAL` over the
  incoming entries (the semantics of `BTreeMap::insert` / `BTreeMap::extend`);
* `serde_value::Value` is restricted to the constructors the configuration
  surface exercises (strings, integers, booleans, and one level of
  string-keyed maps of scalars);
* the model corresponds to the build without the `"tls"` cargo feature: the
  `#[cfg(feature = "tls")]` items of `file.rs` are absent, so `Config` has no
  `use_tls` field and the deserializer never calls `set_use_tls`.
-/

namespace LogGelf

/-- Scalar payloads of `serde_value::Value` used by this crate's configuration
surface. -/
inductive Scalar where
  | str (s : String)
  | int (n : Int)
  | bool (b : Bool)
deriving DecidableEq

/-- Model of `serde_value::Value` (re-exported by `gelf_logger` as `Value`),
restricted to the shapes the configuration surface exercises: a scalar, or a
string-keyed mapping of scalars (the `additional_fields` mapping). -/
inductive Value where
  | scalar (v : Scalar)
  | map (entries : List (String × Scalar))
deriving DecidableEq

/-- Shorthand for `Value::String(s)` — the only key shape this crate ever inserts into an
additional-fields mapping. -/
def Value.vstr (s : String) : Value := Value.scalar (Scalar.str s)

/-- Model of `std::time::Duration` as a number of milliseconds. -/
abbrev Duration : Type := Nat

/-- Rust `Duration::from_millis`. -/
def Duration.fromMillis (n : Nat) : Duration := n

/-- Rust `Duration::from_secs`. -/
def Duration.fromSecs (v : Nat) : Duration := 1000 * v

/-- Rust `BTreeMap::insert` on the association-list model: overwrite the binding of
an existing key, otherwise append the new binding. -/
def insertAL {α β : Type} [DecidableEq α] : List (α × β) → α → β → List (α × β)
  | [], k, v => [(k, v)]
  | (k', v') :: t, k, v =>
    if k = k' then (k, v) :: t else (k', v') :: insertAL t k v

/-- Rust `BTreeMap::get` on the association-list model. -/
def lookupAL {α β : Type} [DecidableEq α] : List (α × β) → α → Option β
  | [], _ => none
  | (k', v') :: t, k => if k = k' then some v' else lookupAL t k

/-- Rust `BTreeMap::extend`: insert every entry of the incoming map, incoming
entries overwriting existing ones of the same key. -/
def extendAL {α β : Type} [DecidableEq α] (m incoming : List (α × β)) : List (α × β) :=
  incoming.foldl (fun acc kv => insertAL acc kv.1 kv.2) m

/-- Rust `serde_gelf::GelfLevel` — the eight GELF severity levels. -/
inductive GelfLevel where
  | emergency
  | alert
  | critical
  | error
  | warning
  | notice
  | informational
  | debugging
deriving DecidableEq

/-- Modelled from the spec: `GelfLevel::default()` lives in the external
`serde_gelf` crate (not part of this repository's sources); the spec documents
the default severity threshold as informational. -/
def GelfLevel.default : GelfLevel := GelfLevel.informational

/-- Modelled from the spec: `env!("CARGO_PKG_NAME")` — the emitting package's
name, read from Cargo metadata not present under `src/`; a concrete stand-in
value. -/
def cargoPkgName : String := "log4rs-gelf"

/-- Modelled from the spec: `env!("CARGO_PKG_VERSION")` — the emitting
package's version, read from Cargo metadata not present under `src/`; a
concrete stand-in value. -/
def cargoPkgVersion : String := "0.5.0"

/-- Rust `BufferAppenderBuilder` (`appender.rs` lines 71–84): the fluent
configuration builder. `port` is `u64` in this crate's version. -/
structure BufferAppenderBuilder where
  level : GelfLevel
  hostname : String
  port : Nat
  use_tls : Bool
  async_buffer_size : Option Nat
  null_character : Bool
  buffer_size : Option Nat
  buffer_duration : Option Duration
  additional_fields : List (Value × Value)
  connect_timeout : Option Duration
  write_timeout : Option Duration
deriving DecidableEq

/-- Rust `impl Default for BufferAppenderBuilder` (`appender.rs` lines 86–107). -/
def BufferAppenderBuilder.default : BufferAppenderBuilder :=
  { level := GelfLevel.default
    hostname := "127.0.0.1"
    port := 12202
    use_tls := true
    async_buffer_size := none
    null_character := true
    buffer_size := some 100
    buffer_duration := some (Duration.fromMillis 500)
    additional_fields :=
      insertAL
        (insertAL [] (Value.vstr "pkg_name") (Value.vstr cargoPkgName))
        (Value.vstr "pkg_version") (Value.vstr cargoPkgVersion)
    connect_timeout := none
    write_timeout := none }

namespace BufferAppenderBuilder

/-- Rust `set_level` (`appender.rs` 113–116). -/
def set_level (b : BufferAppenderBuilder) (level : GelfLevel) : BufferAppenderBuilder :=
  { b with level := level }

/-- Rust `set_hostname` (`appender.rs` 118–121). -/
def set_hostname (b : BufferAppenderBuilder) (hostname : String) : BufferAppenderBuilder :=
  { b with hostname := hostname }

/-- Rust `set_port` (`appender.rs` 123–126). -/
def set_port (b : BufferAppenderBuilder) (port : Nat) : BufferAppenderBuilder :=
  { b with port := port }

/-- Rust `set_use_tls` (`appender.rs` 128–131). -/
def set_use_tls (b : BufferAppenderBuilder) (use_tls : Bool) : BufferAppenderBuilder :=
  { b with use_tls := use_tls }

/-- Rust `set_async_buffer_size` (`appender.rs` 133–136). -/
def set_async_buffer_size (b : BufferAppenderBuilder) (async_buffer_size : Option Nat) :
    BufferAppenderBuilder :=
  { b with async_buffer_size := async_buffer_size }

/-- Rust `set_null_character` (`appender.rs` 138–141). -/
def set_null_character (b : BufferAppenderBuilder) (null_character : Bool) :
    BufferAppenderBuilder :=
  { b with null_character := null_character }

/-- Rust `set_buffer_size` (`appender.rs` 144–147). -/
def set_buffer_size (b : BufferAppenderBuilder) (buffer_size : Option Nat) :
    BufferAppenderBuilder :=
  { b with buffer_size := buffer_size }

/-- Rust `set_buffer_duration` (`appender.rs` 150–153). -/
def set_buffer_duration (b : BufferAppenderBuilder) (buffer_duration : Option Duration) :
    BufferAppenderBuilder :=
  { b with buffer_duration := buffer_duration }

/-- Rust `put_additional_field` (`appender.rs` 155–158): inserts under the key
`Value::String(key)`. -/
def put_additional_field (b : BufferAppenderBuilder) (key : String) (value : Value) :
    BufferAppenderBuilder :=
  { b with additional_fields := insertAL b.additional_fields (Value.vstr key) value }

/-- Rust `extend_additional_field` (`appender.rs` 160–163). -/
def extend_additional_field (b : BufferAppenderBuilder)
    (additional_fields : List (Value × Value)) : BufferAppenderBuilder :=
  { b with additional_fields := extendAL b.additional_fields additional_fields }

/-- Rust `set_connect_timeout` (`appender.rs` 170–173). -/
def set_connect_timeout (b : BufferAppenderBuilder) (connect_timeout : Option Duration) :
    BufferAppenderBuilder :=
  { b with connect_timeout := connect_timeout }

/-- Rust `set_write_timeout` (`appender.rs` 175–178). -/
def set_write_timeout (b : BufferAppenderBuilder) (write_timeout : Option Duration) :
    BufferAppenderBuilder :=
  { b with write_timeout := write_timeout }

end BufferAppenderBuilder

/-- Rust `gelf_logger::Error` — the collaborator's synchronous error type, reduced
to a message. -/
structure GelfError where
  msg : String
deriving DecidableEq

/-- Rust `anyhow::Error` as produced by `.context(ctx)` on a `gelf_logger::Error`:
the context string together with the wrapped source error. -/
structure AnyhowError where
  ctx : String
  source : GelfError
deriving DecidableEq

/-- The configuration assembled by `build()` (`appender.rs` 181–195) and
handed to `gelf_logger::init_processor`: one field per `Config::builder()`
setter call. -/
structure GelfConfig where
  level : GelfLevel
  hostname : String
  port : Nat
  use_tls : Bool
  null_character : Bool
  buffer_size : Nat
  buffer_duration : Duration
  additional_fields : List (Value × Value)
  connect_timeout : Option Duration
  write_timeout : Option Duration
  async_buffer_size : Option Nat

/-- Rust `log::Level` — the logging framework's five severity levels. -/
inductive Level where
  | error
  | warn
  | info
  | debug
  | trace
deriving DecidableEq

/-- Modelled from the spec: the severity mapping from framework levels onto
GELF severities used when a framework level reaches a GELF consumer (the
conversion lives in the external `serde_gelf` crate). -/
def gelfLevelOfLevel : Level → GelfLevel
  | Level.error => GelfLevel.error
  | Level.warn => GelfLevel.warning
  | Level.info => GelfLevel.informational
  | Level.debug => GelfLevel.debugging
  | Level.trace => GelfLevel.debugging

/-- Rust `log::Record` (external, forwarded not owned), reduced to the parts the
adapter forwards. -/
structure Record where
  level : Level
  message : String
deriving DecidableEq

/-- Rust `serde_gelf::GelfRecord` — the collaborator's wire-record shape. -/
structure GelfRecord where
  level : GelfLevel
  message : String
deriving DecidableEq

/-- Modelled from the spec: `GelfRecord::from(record)` — append translates the
framework's record into the collaborator's wire record shape (the conversion
lives in the external `serde_gelf` crate). -/
def GelfRecord.fromRecord (r : Record) : GelfRecord :=
  { level := gelfLevelOfLevel r.level, message := r.message }

/-- Rust `gelf_logger::BatchProcessor` — the delivery collaborator handle returned
by `init_processor`. It holds the configuration it was constructed from, and
its synchronous `send` outcome is modelled as a function so that every
possible collaborator behaviour (success or synchronous failure per record)
is a value of this type. -/
structure BatchProcessor where
  cfg : GelfConfig
  sendResult : GelfRecord → Except GelfError Unit

/-- Modelled from the spec: `gelf_logger::init_processor(&cfg)` — constructs
the background batching/delivery worker from the configuration and returns a
handle (construction failures are runtime conditions of the external crate;
the model constructs a handle whose synchronous sends succeed). -/
def initProcessor (cfg : GelfConfig) : Except GelfError BatchProcessor :=
  Except.ok { cfg := cfg, sendResult := fun _ => Except.ok () }

/-- Rust `BufferAppender` (`appender.rs` 41–43): owns the delivery handle. -/
structure BufferAppender where
  processor : BatchProcessor

namespace BufferAppenderBuilder

/-- The `gelf_logger::Config` assembled inside `build()` (`appender.rs`
181–200): every builder field is copied across, `buffer_size` and
`buffer_duration` fall back to `100` records and `500` ms when `None`, and
`set_async_buffer_size` is invoked only when the builder holds a value (so the
resulting field is exactly the builder's `Option`, the collaborator default
being unset). -/
def configOf (b : BufferAppenderBuilder) : GelfConfig :=
  { level := b.level
    hostname := b.hostname
    port := b.port
    use_tls := b.use_tls
    null_character := b.null_character
    buffer_size := b.buffer_size.getD 100
    buffer_duration := b.buffer_duration.getD (Duration.fromMillis 500)
    additional_fields := b.additional_fields
    connect_timeout := b.connect_timeout
    write_timeout := b.write_timeout
    async_buffer_size := b.async_buffer_size }

/-- Rust `build()` (`appender.rs` 180–205): assemble the configuration, hand it to
`init_processor`, and wrap the returned handle in a `BufferAppender`; the
collaborator's construction error propagates (`?`). -/
def build (b : BufferAppenderBuilder) : Except GelfError BufferAppender :=
  match initProcessor b.configOf with
  | Except.ok p => Except.ok { processor := p }
  | Except.error e => Except.error e

end BufferAppenderBuilder

namespace BufferAppender

/-- Rust `BufferAppender::builder()` (`appender.rs` 211–213). -/
def builder : BufferAppenderBuilder := BufferAppenderBuilder.default

/-- Rust `impl Append for BufferAppender — append` (`appender.rs` 224–226):
`self.processor.send(&GelfRecord::from(record)).context("")`. -/
def append (a : BufferAppender) (r : Record) : Except AnyhowError Unit :=
  match a.processor.sendResult (GelfRecord.fromRecord r) with
  | Except.ok _ => Except.ok ()
  | Except.error e => Except.error { ctx := "", source := e }

/-- Rust `impl Append for BufferAppender — flush` (`appender.rs` 227): `fn
flush(&self) {}` — an empty body behind a shared reference, modelled as
state passing returning the unchanged appender. -/
def flush (a : BufferAppender) : Unit × BufferAppender := ((), a)

end BufferAppender

/-- Rust `Config` (`file.rs` 50–62): the declarative configuration section shape
derived with serde `Deserialize` (build without the `"tls"` feature, so no
`use_tls` field). `port` is `u16`, the timeouts are in seconds. -/
structure Config where
  level : Level
  hostname : String
  port : Nat
  null_character : Bool
  buffer_size : Option Nat
  additional_fields : List (String × Value)
  connect_timeout : Option Nat
  write_timeout : Option Nat
deriving DecidableEq

/-- Rust `BufferAppenderDeserializer::deserialize` (`file.rs` 19–40), the builder
part: start from the default builder and populate it field by field from the
parsed `Config` (the `u64`-second timeouts becoming `Duration`s, the
string-keyed additional fields becoming `Value::String`-keyed ones; `set_use_tls`
is behind the `"tls"` feature and absent here; neither `set_buffer_duration`
nor `set_async_buffer_size` is ever invoked). -/
def deserializeBuilder (c : Config) : BufferAppenderBuilder :=
  ((((((BufferAppenderBuilder.default.set_level (gelfLevelOfLevel c.level)).set_hostname
      c.hostname).set_port c.port).set_null_character c.null_character).set_buffer_size
      c.buffer_size).extend_additional_field
      (c.additional_fields.map (fun kv => (Value.vstr kv.1, kv.2)))).set_connect_timeout
      (c.connect_timeout.map Duration.fromSecs) |>.set_write_timeout
      (c.write_timeout.map Duration.fromSecs)

/-- Rust `BufferAppenderDeserializer::deserialize` (`file.rs` 19–40), the full
operation: build the appender from the populated builder, propagating the
construction error (`build()?`). -/
def deserialize (c : Config) : Except GelfError BufferAppender :=
  (deserializeBuilder c).build

/-! The framework's generic config-parsing layer

`Config` carries `#[derive(serde_derive::Deserialize)]`; the semantics of the
derived deserializer on a key/value section follow serde's documented derive
behaviour: every field is required unless its type is `Option<_>` (a missing
`Option` field becomes `None`), a missing required field is rejected with a
`missing field` error (fields checked in declaration order), each present
value must decode at the field's type, and keys that match no field are
ignored (no `deny_unknown_fields` attribute is present). -/

/-- Decode a section value at type `String`. -/
def decodeString : Value → Except String String
  | Value.scalar (Scalar.str s) => Except.ok s
  | _ => Except.error "invalid type: expected a string"

/-- Decode a section value at type `bool`. -/
def decodeBool : Value → Except String Bool
  | Value.scalar (Scalar.bool b) => Except.ok b
  | _ => Except.error "invalid type: expected a boolean"

/-- Decode a section value at an unsigned integer type of `bits` bits
(`u16` for `port`, `u64` for the timeouts and sizes). -/
def decodeUInt (bits : Nat) : Value → Except String Nat
  | Value.scalar (Scalar.int n) =>
    if 0 ≤ n ∧ n < (2 : Int) ^ bits then Except.ok n.toNat
    else Except.error "invalid value: integer out of range"
  | _ => Except.error "invalid type: expected an integer"

/-- Decode a section value at type `BTreeMap<String, Value>`
(the `additional_fields` mapping): later duplicate keys overwrite earlier
ones, exactly as deserializing into a `BTreeMap` does. -/
def decodeFieldsMap : Value → Except String (List (String × Value))
  | Value.map l =>
    Except.ok (l.foldl (fun acc kv => insertAL acc kv.1 (Value.scalar kv.2)) [])
  | _ => Except.error "invalid type: expected a map"

/-- Modelled from the spec: the serde impl of `log::Level` (external `log`
crate) accepts the level's name, matched case-insensitively; the model accepts
the lowercase spelling. -/
def decodeLevel (v : Value) : Except String Level :=
  match v with
  | Value.scalar (Scalar.str s) =>
    match s with
    | "error" => Except.ok Level.error
    | "warn" => Except.ok Level.warn
    | "info" => Except.ok Level.info
    | "debug" => Except.ok Level.debug
    | "trace" => Except.ok Level.trace
    | _ => Except.error "unknown variant for level"
  | _ => Except.error "invalid type: expected a string"

/-- A required field of the derived deserializer: present and decodable, or a
`missing field` error. -/
def reqField {α : Type} (s : List (String × Value)) (key : String)
    (dec : Value → Except String α) : Except String α :=
  match lookupAL s key with
  | some v => dec v
  | none => Except.error ("missing field " ++ key)

/-- An `Option<_>` field of the derived deserializer: `None` when absent. -/
def optField {α : Type} (s : List (String × Value)) (key : String)
    (dec : Value → Except String α) : Except String (Option α) :=
  match lookupAL s key with
  | some v => (dec v).map some
  | none => Except.ok none

/-- The derived `Deserialize` impl of `Config` applied to a configuration
section (a key/value mapping): required fields in declaration order, `Option`
fields optional, unknown keys ignored. -/
def parseConfig (s : List (String × Value)) : Except String Config := do
  let level ← reqField s "level" decodeLevel
  let hostname ← reqField s "hostname" decodeString
  let port ← reqField s "port" (decodeUInt 16)
  let null_character ← reqField s "null_character" decodeBool
  let buffer_size ← optField s "buffer_size" (decodeUInt 64)
  let additional_fields ← reqField s "additional_fields" decodeFieldsMap
  let connect_timeout ← optField s "connect_timeout" (decodeUInt 64)
  let write_timeout ← optField s "write_timeout" (decodeUInt 64)
  Except.ok
    { level := level
      hostname := hostname
      port := port
      null_character := null_character
      buffer_size := buffer_size
      additional_fields := additional_fields
      connect_timeout := connect_timeout
      write_timeout := write_timeout }

/-- The deserializer implementations this crate can register; `file.rs`
defines exactly one, `BufferAppenderDeserializer`. -/
inductive AppenderDeserializerId where
  | bufferAppender
deriving DecidableEq

/-- Modelled from the spec: `log4rs::config::Deserializers::default()` — the
framework's built-in registry, whose entries live outside this crate and none
of which uses this crate's discriminator. -/
def deserializersDefault : List (String × AppenderDeserializerId) := []

/-- Rust `deserializers()` (`file.rs` 43–47): insert `BufferAppenderDeserializer`
under the discriminator string `"buffer"` into the default registry. -/
def deserializers : List (String × AppenderDeserializerId) :=
  insertAL deserializersDefault "buffer" AppenderDeserializerId.bufferAppender

/-! Lemmas about the association-list model of `BTreeMap` -/

theorem lookupAL_insertAL_self {α β : Type} [DecidableEq α] (l : List (α × β)) (k : α) (v : β) :
    lookupAL (insertAL l k v) k = some v := by
  induction l with
  | nil => simp [insertAL, lookupAL]
  | cons hd t ih =>
    obtain ⟨k', v'⟩ := hd
    by_cases h : k = k' <;> simp [insertAL, lookupAL, h, ih]

theorem lookupAL_insertAL_ne {α β : Type} [DecidableEq α] (l : List (α × β)) (k q : α) (v : β)
    (h : q ≠ k) : lookupAL (insertAL l k v) q = lookupAL l q := by
  induction l with
  | nil => simp [insertAL, lookupAL, h]
  | cons hd t ih =>
    obtain ⟨k', v'⟩ := hd
    by_cases hk : k = k'
    · subst hk
      simp [insertAL, lookupAL, h]
    · by_cases hq : q = k' <;> simp [insertAL, lookupAL, hk, hq, ih]

theorem insertAL_insertAL_same {α β : Type} [DecidableEq α] (l : List (α × β)) (k : α)
    (v1 v2 : β) : insertAL (insertAL l k v1) k v2 = insertAL l k v2 := by
  induction l with
  | nil => simp [insertAL]
  | cons hd t ih =>
    obtain ⟨k', v'⟩ := hd
    by_cases h : k = k' <;> simp [insertAL, h, ih]

theorem lookupAL_eq_none_of_not_mem {α β : Type} [DecidableEq α] (l : List (α × β)) (k : α)
    (h : k ∉ l.map Prod.fst) : lookupAL l k = none := by
  induction l with
  | nil => simp [lookupAL]
  | cons hd t ih =>
    obtain ⟨k', v'⟩ := hd
    simp only [List.map_cons, List.mem_cons] at h
    push_neg at h
    simp [lookupAL, h.1, ih h.2]

theorem lookupAL_extendAL_of_none {α β : Type} [DecidableEq α] (inc : List (α × β)) (k : α) :
    ∀ m : List (α × β), lookupAL inc k = none →
      lookupAL (extendAL m inc) k = lookupAL m k := by
  induction inc with
  | nil => intro m _; rfl
  | cons hd t ih =>
    obtain ⟨k', v'⟩ := hd
    intro m h
    by_cases hk : k = k'
    · simp [lookupAL, hk] at h
    · simp only [lookupAL, if_neg hk] at h
      show lookupAL (extendAL (insertAL m k' v') t) k = lookupAL m k
      rw [ih (insertAL m k' v') h, lookupAL_insertAL_ne _ _ _ _ hk]

theorem lookupAL_extendAL_of_some {α β : Type} [DecidableEq α] (inc : List (α × β)) (k : α)
    (v : β) : ∀ m : List (α × β), (inc.map Prod.fst).Nodup → lookupAL inc k = some v →
      lookupAL (extendAL m inc) k = some v := by
  induction inc with
  | nil => intro m _ h; simp [lookupAL] at h
  | cons hd t ih =>
    obtain ⟨k', v'⟩ := hd
    intro m hnd h
    simp only [List.map_cons, List.nodup_cons] at hnd
    by_cases hk : k = k'
    · subst hk
      simp only [lookupAL, if_pos trivial, Option.some.injEq] at h
      subst h
      show lookupAL (extendAL (insertAL m k v') t) k = some v'
      rw [lookupAL_extendAL_of_none t k (insertAL m k v')
        (lookupAL_eq_none_of_not_mem t k hnd.1), lookupAL_insertAL_self]
    · simp only [lookupAL, if_neg hk] at h
      exact ih (insertAL m k' v') hnd.2 h

/-! The claims. -/

/-- C1: the default-constructed `BufferAppenderBuilder` carries the documented
defaults — severity level informational, hostname `"127.0.0.1"`, port `12202`,
`use_tls` enabled, NUL-terminator enabled, `buffer_size = Some(100)`,
`buffer_duration = Some(500 ms)`, and `additional_fields` pre-seeded with
exactly the package's name and version under `"pkg_name"`/`"pkg_version"`
(async buffer size and both timeouts unset). -/
theorem default_builder_defaults :
    BufferAppenderBuilder.default.level = GelfLevel.informational ∧
    BufferAppenderBuilder.default.hostname = "127.0.0.1" ∧
    BufferAppenderBuilder.default.port = 12202 ∧
    BufferAppenderBuilder.default.use_tls = true ∧
    BufferAppenderBuilder.default.null_character = true ∧
    BufferAppenderBuilder.default.buffer_size = some 100 ∧
    BufferAppenderBuilder.default.buffer_duration = some (Duration.fromMillis 500) ∧
    BufferAppenderBuilder.default.additional_fields =
      [(Value.vstr "pkg_name", Value.vstr cargoPkgName),
       (Value.vstr "pkg_version", Value.vstr cargoPkgVersion)] ∧
    BufferAppenderBuilder.default.async_buffer_size = none ∧
    BufferAppenderBuilder.default.connect_timeout = none ∧
    BufferAppenderBuilder.default.write_timeout = none := by
  refine ⟨rfl, rfl, rfl, rfl, rfl, rfl, rfl, ?_, rfl, rfl, rfl⟩
  decide

/-- C7: `flush()` always returns unit and leaves the appender (hence its
delivery handle) unchanged — the draining is entirely the external worker's. -/
theorem flush_noop (a : BufferAppender) : a.flush = ((), a) := rfl

/-- C8: the configuration `build()` hands to the delivery collaborator falls
back to 100 records when `buffer_size` is `None` and to 500 ms when
`buffer_duration` is `None` — `None` disables the override, it does not
disable buffering. -/
theorem build_none_falls_back_to_defaults (b : BufferAppenderBuilder) :
    (b.buffer_size = none → b.configOf.buffer_size = 100) ∧
    (b.buffer_duration = none → b.configOf.buffer_duration = Duration.fromMillis 500) := by
  constructor <;> intro h <;> simp [BufferAppenderBuilder.configOf, h]

/-- Witness for C8 at the builder that explicitly clears both options. -/
theorem build_none_falls_back_to_defaults_witness :
    ((BufferAppenderBuilder.default.set_buffer_size none).set_buffer_duration
        none).buffer_size = none ∧
    ((BufferAppenderBuilder.default.set_buffer_size none).set_buffer_duration
        none).configOf.buffer_size = 100 ∧
    ((BufferAppenderBuilder.default.set_buffer_size none).set_buffer_duration
        none).buffer_duration = none ∧
    ((BufferAppenderBuilder.default.set_buffer_size none).set_buffer_duration
        none).configOf.buffer_duration = Duration.fromMillis 500 :=
  ⟨rfl,
   (build_none_falls_back_to_defaults
     ((BufferAppenderBuilder.default.set_buffer_size none).set_buffer_duration none)).1 rfl,
   rfl,
   (build_none_falls_back_to_defaults
     ((BufferAppenderBuilder.default.set_buffer_size none).set_buffer_duration none)).2 rfl⟩

/-- C3: `put_additional_field` has last-write-wins mapping semantics — putting
the same key twice equals putting it once with the last value, and putting two
distinct keys retains both entries. -/
theorem put_additional_field_overwrite (b : BufferAppenderBuilder) :
    (∀ k v1 v2,
      ((b.put_additional_field k v1).put_additional_field k v2).additional_fields =
        (b.put_additional_field k v2).additional_fields) ∧
    (∀ k1 k2 w1 w2, k1 ≠ k2 →
      lookupAL (((b.put_additional_field k1 w1).put_additional_field k2 w2).additional_fields)
          (Value.vstr k1) = some w1 ∧
      lookupAL (((b.put_additional_field k1 w1).put_additional_field k2 w2).additional_fields)
          (Value.vstr k2) = some w2) := by
  constructor
  · intro k v1 v2
    simp [BufferAppenderBuilder.put_additional_field, insertAL_insertAL_same]
  · intro k1 k2 w1 w2 hne
    have hv : Value.vstr k1 ≠ Value.vstr k2 := by
      simp [Value.vstr, hne]
    constructor
    · rw [BufferAppenderBuilder.put_additional_field,
        BufferAppenderBuilder.put_additional_field]
      simp only
      rw [lookupAL_insertAL_ne _ _ _ _ hv, lookupAL_insertAL_self]
    · rw [BufferAppenderBuilder.put_additional_field,
        BufferAppenderBuilder.put_additional_field]
      simp only
      rw [lookupAL_insertAL_self]

/-- Witness for C3 at the default builder with the distinct keys `"a"`,
`"b"`. -/
theorem put_additional_field_overwrite_witness :
    "a" ≠ "b" ∧
    lookupAL (((BufferAppenderBuilder.default.put_additional_field "a"
        (Value.vstr "1")).put_additional_field "b"
        (Value.vstr "2")).additional_fields) (Value.vstr "a") = some (Value.vstr "1") ∧
    lookupAL (((BufferAppenderBuilder.default.put_additional_field "a"
        (Value.vstr "1")).put_additional_field "b"
        (Value.vstr "2")).additional_fields) (Value.vstr "b") = some (Value.vstr "2") :=
  ⟨by decide,
   ((put_additional_field_overwrite BufferAppenderBuilder.default).2 "a" "b"
     (Value.vstr "1") (Value.vstr "2") (by decide)).1,
   ((put_additional_field_overwrite BufferAppenderBuilder.default).2 "a" "b"
     (Value.vstr "1") (Value.vstr "2") (by decide)).2⟩

/-- C2: `append(record)` succeeds exactly when the delivery handle's
synchronous send of the converted GELF record succeeds, and a synchronous
failure is wrapped (with the empty `context("")` string) and returned to the
caller rather than swallowed. -/
theorem append_propagates_send (a : BufferAppender) (r : Record) :
    (a.append r = Except.ok () ↔
      a.processor.sendResult (GelfRecord.fromRecord r) = Except.ok ()) ∧
    (∀ e : GelfError, a.processor.sendResult (GelfRecord.fromRecord r) = Except.error e →
      a.append r = Except.error { ctx := "", source := e }) := by
  cases hx : a.processor.sendResult (GelfRecord.fromRecord r) with
  | ok u => cases u; constructor <;> simp [BufferAppender.append, hx]
  | error e =>
    constructor
    · simp [BufferAppender.append, hx]
    · intro e' he
      injection he with h2
      subst h2
      simp [BufferAppender.append, hx]

/-- A delivery handle whose synchronous send always fails, for observing the
error path of `append`. -/
def failingProcessor : BatchProcessor :=
  { cfg := BufferAppenderBuilder.default.configOf
    sendResult := fun _ => Except.error { msg := "serialization" } }

/-- Witness for C2 on an appender whose handle reports a synchronous
failure. -/
theorem append_propagates_send_witness :
    (BufferAppender.mk failingProcessor).processor.sendResult
        (GelfRecord.fromRecord { level := Level.info, message := "m" }) =
      Except.error { msg := "serialization" } ∧
    (BufferAppender.mk failingProcessor).append { level := Level.info, message := "m" } =
      Except.error { ctx := "", source := { msg := "serialization" } } :=
  ⟨rfl,
   (append_propagates_send (BufferAppender.mk failingProcessor)
     { level := Level.info, message := "m" }).2 { msg := "serialization" } rfl⟩

/-- C9: `extend_additional_field` merges the incoming mapping into the
builder's — every key of the incoming map ends up bound to the incoming value
(incoming entries overwrite existing ones), and every other key keeps its
prior binding. -/
theorem extend_additional_field_merge (b : BufferAppenderBuilder)
    (m : List (Value × Value)) (k : Value) (hnd : (m.map Prod.fst).Nodup) :
    (∀ v, lookupAL m k = some v →
      lookupAL (b.extend_additional_field m).additional_fields k = some v) ∧
    (lookupAL m k = none →
      lookupAL (b.extend_additional_field m).additional_fields k =
        lookupAL b.additional_fields k) := by
  constructor
  · intro v hv
    exact lookupAL_extendAL_of_some m k v b.additional_fields hnd hv
  · intro hv
    exact lookupAL_extendAL_of_none m k b.additional_fields hv

/-- Witness for C9: merging a two-entry map into the default builder, one
entry overwriting the pre-seeded `"pkg_name"` binding and one fresh, while an
untouched key keeps its prior (absent) binding. -/
theorem extend_additional_field_merge_witness :
    (([(Value.vstr "pkg_name", Value.vstr "other"),
       (Value.vstr "x", Value.vstr "1")] : List (Value × Value)).map Prod.fst).Nodup ∧
    lookupAL [(Value.vstr "pkg_name", Value.vstr "other"), (Value.vstr "x", Value.vstr "1")]
        (Value.vstr "pkg_name") = some (Value.vstr "other") ∧
    lookupAL (BufferAppenderBuilder.default.extend_additional_field
        [(Value.vstr "pkg_name", Value.vstr "other"),
         (Value.vstr "x", Value.vstr "1")]).additional_fields (Value.vstr "pkg_name") =
      some (Value.vstr "other") ∧
    lookupAL [(Value.vstr "pkg_name", Value.vstr "other"), (Value.vstr "x", Value.vstr "1")]
        (Value.vstr "pkg_version") = none ∧
    lookupAL (BufferAppenderBuilder.default.extend_additional_field
        [(Value.vstr "pkg_name", Value.vstr "other"),
         (Value.vstr "x", Value.vstr "1")]).additional_fields (Value.vstr "pkg_version") =
      lookupAL BufferAppenderBuilder.default.additional_fields (Value.vstr "pkg_version") :=
  ⟨by decide, by decide,
   (extend_additional_field_merge BufferAppenderBuilder.default
     [(Value.vstr "pkg_name", Value.vstr "other"), (Value.vstr "x", Value.vstr "1")]
     (Value.vstr "pkg_name") (by decide)).1 (Value.vstr "other") (by decide),
   by decide,
   (extend_additional_field_merge BufferAppenderBuilder.default
     [(Value.vstr "pkg_name", Value.vstr "other"), (Value.vstr "x", Value.vstr "1")]
     (Value.vstr "pkg_version") (by decide)).2 (by decide)⟩

/-- C6 counterexample: the builder performs no validation, so the
configuration `default().set_port(0)` — reachable through the builder's
operations — has port `0`, which is not positive, and
`default().set_buffer_size(Some(0))` holds a present buffer size of `0`. -/
theorem set_port_accepts_zero :
    (BufferAppenderBuilder.default.set_port 0).port = 0 ∧
    ¬ 0 < (BufferAppenderBuilder.default.set_port 0).port ∧
    (BufferAppenderBuilder.default.set_buffer_size (some 0)).buffer_size = some 0 ∧
    ¬ (∀ n, (BufferAppenderBuilder.default.set_buffer_size (some 0)).buffer_size = some n →
        0 < n) := by
  refine ⟨rfl, by decide, rfl, fun h => ?_⟩
  exact absurd (h 0 rfl) (by decide)

/-- C6 as amended: `set_port` and `set_buffer_size` store their arguments
without validation, so the positivity invariants hold for the default
configuration and are preserved exactly when the supplied values are
themselves positive. -/
theorem positivity_preserved_for_positive_inputs :
    (0 < BufferAppenderBuilder.default.port ∧
      ∀ n, BufferAppenderBuilder.default.buffer_size = some n → 0 < n) ∧
    (∀ (b : BufferAppenderBuilder) (p : Nat), (b.set_port p).port = p ∧
      (0 < p → 0 < (b.set_port p).port)) ∧
    (∀ (b : BufferAppenderBuilder) (s : Option Nat), (b.set_buffer_size s).buffer_size = s ∧
      ((∀ n, s = some n → 0 < n) →
        ∀ n, (b.set_buffer_size s).buffer_size = some n → 0 < n)) := by
  refine ⟨⟨by decide, ?_⟩, fun b p => ⟨rfl, fun h => h⟩, fun b s => ⟨rfl, fun h => h⟩⟩
  intro n hn
  cases hn
  decide

/-- Witness for C6 (amended) at positive inputs `port = 12203`,
`buffer_size = Some 7`. -/
theorem positivity_preserved_witness :
    (0 < 12203 ∧ 0 < (BufferAppenderBuilder.default.set_port 12203).port) ∧
    ((∀ n, (some 7 : Option Nat) = some n → 0 < n) ∧
      ∀ n, (BufferAppenderBuilder.default.set_buffer_size (some 7)).buffer_size = some n →
        0 < n) :=
  ⟨⟨by decide,
    (positivity_preserved_for_positive_inputs.2.1 BufferAppenderBuilder.default 12203).2
      (by decide)⟩,
   ⟨fun n hn => by cases hn; decide,
    (positivity_preserved_for_positive_inputs.2.2 BufferAppenderBuilder.default (some 7)).2
      (fun n hn => by cases hn; decide)⟩⟩

/-- C10: every builder setter is a total function (its Lean type returns a
builder, never an error — `build()` alone returns an `Except`) that stores its
argument in its designated field and leaves every other field of the builder
unchanged. -/
theorem setters_modify_only_designated_field :
    (∀ (b : BufferAppenderBuilder) (x : GelfLevel), (b.set_level x).level = x ∧
      (b.set_level x).hostname = b.hostname ∧ (b.set_level x).port = b.port ∧
      (b.set_level x).use_tls = b.use_tls ∧
      (b.set_level x).async_buffer_size = b.async_buffer_size ∧
      (b.set_level x).null_character = b.null_character ∧
      (b.set_level x).buffer_size = b.buffer_size ∧
      (b.set_level x).buffer_duration = b.buffer_duration ∧
      (b.set_level x).additional_fields = b.additional_fields ∧
      (b.set_level x).connect_timeout = b.connect_timeout ∧
      (b.set_level x).write_timeout = b.write_timeout) ∧
    (∀ (b : BufferAppenderBuilder) (x : String), (b.set_hostname x).hostname = x ∧
      (b.set_hostname x).level = b.level ∧ (b.set_hostname x).port = b.port ∧
      (b.set_hostname x).use_tls = b.use_tls ∧
      (b.set_hostname x).async_buffer_size = b.async_buffer_size ∧
      (b.set_hostname x).null_character = b.null_character ∧
      (b.set_hostname x).buffer_size = b.buffer_size ∧
      (b.set_hostname x).buffer_duration = b.buffer_duration ∧
      (b.set_hostname x).additional_fields = b.additional_fields ∧
      (b.set_hostname x).connect_timeout = b.connect_timeout ∧
      (b.set_hostname x).write_timeout = b.write_timeout) ∧
    (∀ (b : BufferAppenderBuilder) (x : Nat), (b.set_port x).port = x ∧
      (b.set_port x).level = b.level ∧ (b.set_port x).hostname = b.hostname ∧
      (b.set_port x).use_tls = b.use_tls ∧
      (b.set_port x).async_buffer_size = b.async_buffer_size ∧
      (b.set_port x).null_character = b.null_character ∧
      (b.set_port x).buffer_size = b.buffer_size ∧
      (b.set_port x).buffer_duration = b.buffer_duration ∧
      (b.set_port x).additional_fields = b.additional_fields ∧
      (b.set_port x).connect_timeout = b.connect_timeout ∧
      (b.set_port x).write_timeout = b.write_timeout) ∧
    (∀ (b : BufferAppenderBuilder) (x : Bool), (b.set_use_tls x).use_tls = x ∧
      (b.set_use_tls x).level = b.level ∧ (b.set_use_tls x).hostname = b.hostname ∧
      (b.set_use_tls x).port = b.port ∧
      (b.set_use_tls x).async_buffer_size = b.async_buffer_size ∧
      (b.set_use_tls x).null_character = b.null_character ∧
      (b.set_use_tls x).buffer_size = b.buffer_size ∧
      (b.set_use_tls x).buffer_duration = b.buffer_duration ∧
      (b.set_use_tls x).additional_fields = b.additional_fields ∧
      (b.set_use_tls x).connect_timeout = b.connect_timeout ∧
      (b.set_use_tls x).write_timeout = b.write_timeout) ∧
    (∀ (b : BufferAppenderBuilder) (x : Option Nat),
      (b.set_async_buffer_size x).async_buffer_size = x ∧
      (b.set_async_buffer_size x).level = b.level ∧
      (b.set_async_buffer_size x).hostname = b.hostname ∧
      (b.set_async_buffer_size x).port = b.port ∧
      (b.set_async_buffer_size x).use_tls = b.use_tls ∧
      (b.set_async_buffer_size x).null_character = b.null_character ∧
      (b.set_async_buffer_size x).buffer_size = b.buffer_size ∧
      (b.set_async_buffer_size x).buffer_duration = b.buffer_duration ∧
      (b.set_async_buffer_size x).additional_fields = b.additional_fields ∧
      (b.set_async_buffer_size x).connect_timeout = b.connect_timeout ∧
      (b.set_async_buffer_size x).write_timeout = b.write_timeout) ∧
    (∀ (b : BufferAppenderBuilder) (x : Bool),
      (b.set_null_character x).null_character = x ∧
      (b.set_null_character x).level = b.level ∧
      (b.set_null_character x).hostname = b.hostname ∧
      (b.set_null_character x).port = b.port ∧
      (b.set_null_character x).use_tls = b.use_tls ∧
      (b.set_null_character x).async_buffer_size = b.async_buffer_size ∧
      (b.set_null_character x).buffer_size = b.buffer_size ∧
      (b.set_null_character x).buffer_duration = b.buffer_duration ∧
      (b.set_null_character x).additional_fields = b.additional_fields ∧
      (b.set_null_character x).connect_timeout = b.connect_timeout ∧
      (b.set_null_character x).write_timeout = b.write_timeout) ∧
    (∀ (b : BufferAppenderBuilder) (x : Option Nat),
      (b.set_buffer_size x).buffer_size = x ∧
      (b.set_buffer_size x).level = b.level ∧
      (b.set_buffer_size x).hostname = b.hostname ∧
      (b.set_buffer_size x).port = b.port ∧
      (b.set_buffer_size x).use_tls = b.use_tls ∧
      (b.set_buffer_size x).async_buffer_size = b.async_buffer_size ∧
      (b.set_buffer_size x).null_character = b.null_character ∧
      (b.set_buffer_size x).buffer_duration = b.buffer_duration ∧
      (b.set_buffer_size x).additional_fields = b.additional_fields ∧
      (b.set_buffer_size x).connect_timeout = b.connect_timeout ∧
      (b.set_buffer_size x).write_timeout = b.write_timeout) ∧
    (∀ (b : BufferAppenderBuilder) (x : Option Duration),
      (b.set_buffer_duration x).buffer_duration = x ∧
      (b.set_buffer_duration x).level = b.level ∧
      (b.set_buffer_duration x).hostname = b.hostname ∧
      (b.set_buffer_duration x).port = b.port ∧
      (b.set_buffer_duration x).use_tls = b.use_tls ∧
      (b.set_buffer_duration x).async_buffer_size = b.async_buffer_size ∧
      (b.set_buffer_duration x).null_character = b.null_character ∧
      (b.set_buffer_duration x).buffer_size = b.buffer_size ∧
      (b.set_buffer_duration x).additional_fields = b.additional_fields ∧
      (b.set_buffer_duration x).connect_timeout = b.connect_timeout ∧
      (b.set_buffer_duration x).write_timeout = b.write_timeout) ∧
    (∀ (b : BufferAppenderBuilder) (k : String) (v : Value),
      (b.put_additional_field k v).additional_fields =
        insertAL b.additional_fields (Value.vstr k) v ∧
      (b.put_additional_field k v).level = b.level ∧
      (b.put_additional_field k v).hostname = b.hostname ∧
      (b.put_additional_field k v).port = b.port ∧
      (b.put_additional_field k v).use_tls = b.use_tls ∧
      (b.put_additional_field k v).async_buffer_size = b.async_buffer_size ∧
      (b.put_additional_field k v).null_character = b.null_character ∧
      (b.put_additional_field k v).buffer_size = b.buffer_size ∧
      (b.put_additional_field k v).buffer_duration = b.buffer_duration ∧
      (b.put_additional_field k v).connect_timeout = b.connect_timeout ∧
      (b.put_additional_field k v).write_timeout = b.write_timeout) ∧
    (∀ (b : BufferAppenderBuilder) (m : List (Value × Value)),
      (b.extend_additional_field m).additional_fields =
        extendAL b.additional_fields m ∧
      (b.extend_additional_field m).level = b.level ∧
      (b.extend_additional_field m).hostname = b.hostname ∧
      (b.extend_additional_field m).port = b.port ∧
      (b.extend_additional_field m).use_tls = b.use_tls ∧
      (b.extend_additional_field m).async_buffer_size = b.async_buffer_size ∧
      (b.extend_additional_field m).null_character = b.null_character ∧
      (b.extend_additional_field m).buffer_size = b.buffer_size ∧
      (b.extend_additional_field m).buffer_duration = b.buffer_duration ∧
      (b.extend_additional_field m).connect_timeout = b.connect_timeout ∧
      (b.extend_additional_field m).write_timeout = b.write_timeout) ∧
    (∀ (b : BufferAppenderBuilder) (x : Option Duration),
      (b.set_connect_timeout x).connect_timeout = x ∧
      (b.set_connect_timeout x).level = b.level ∧
      (b.set_connect_timeout x).hostname = b.hostname ∧
      (b.set_connect_timeout x).port = b.port ∧
      (b.set_connect_timeout x).use_tls = b.use_tls ∧
      (b.set_connect_timeout x).async_buffer_size = b.async_buffer_size ∧
      (b.set_connect_timeout x).null_character = b.null_character ∧
      (b.set_connect_timeout x).buffer_size = b.buffer_size ∧
      (b.set_connect_timeout x).buffer_duration = b.buffer_duration ∧
      (b.set_connect_timeout x).additional_fields = b.additional_fields ∧
      (b.set_connect_timeout x).write_timeout = b.write_timeout) ∧
    (∀ (b : BufferAppenderBuilder) (x : Option Duration),
      (b.set_write_timeout x).write_timeout = x ∧
      (b.set_write_timeout x).level = b.level ∧
      (b.set_write_timeout x).hostname = b.hostname ∧
      (b.set_write_timeout x).port = b.port ∧
      (b.set_write_timeout x).use_tls = b.use_tls ∧
      (b.set_write_timeout x).async_buffer_size = b.async_buffer_size ∧
      (b.set_write_timeout x).null_character = b.null_character ∧
      (b.set_write_timeout x).buffer_size = b.buffer_size ∧
      (b.set_write_timeout x).buffer_duration = b.buffer_duration ∧
      (b.set_write_timeout x).additional_fields = b.additional_fields ∧
      (b.set_write_timeout x).connect_timeout = b.connect_timeout) :=
  ⟨fun _ _ => ⟨rfl, rfl, rfl, rfl, rfl, rfl, rfl, rfl, rfl, rfl, rfl⟩,
   fun _ _ => ⟨rfl, rfl, rfl, rfl, rfl, rfl, rfl, rfl, rfl, rfl, rfl⟩,
   fun _ _ => ⟨rfl, rfl, rfl, rfl, rfl, rfl, rfl, rfl, rfl, rfl, rfl⟩,
   fun _ _ => ⟨rfl, rfl, rfl, rfl, rfl, rfl, rfl, rfl, rfl, rfl, rfl⟩,
   fun _ _ => ⟨rfl, rfl, rfl, rfl, rfl, rfl, rfl, rfl, rfl, rfl, rfl⟩,
   fun _ _ => ⟨rfl, rfl, rfl, rfl, rfl, rfl, rfl, rfl, rfl, rfl, rfl⟩,
   fun _ _ => ⟨rfl, rfl, rfl, rfl, rfl, rfl, rfl, rfl, rfl, rfl, rfl⟩,
   fun _ _ => ⟨rfl, rfl, rfl, rfl, rfl, rfl, rfl, rfl, rfl, rfl, rfl⟩,
   fun _ _ _ => ⟨rfl, rfl, rfl, rfl, rfl, rfl, rfl, rfl, rfl, rfl, rfl⟩,
   fun _ _ => ⟨rfl, rfl, rfl, rfl, rfl, rfl, rfl, rfl, rfl, rfl, rfl⟩,
   fun _ _ => ⟨rfl, rfl, rfl, rfl, rfl, rfl, rfl, rfl, rfl, rfl, rfl⟩,
   fun _ _ => ⟨rfl, rfl, rfl, rfl, rfl, rfl, rfl, rfl, rfl, rfl, rfl⟩⟩

/-- The configuration section of the spec's deserialization scenario: exactly
the keys `hostname: localhost`, `port: 12202`, `buffer_size: 5` (the `kind:
buffer` discriminator is consumed by the framework before the section reaches
the deserializer). -/
def minimalSection : List (String × Value) :=
  [("hostname", Value.vstr "localhost"),
   ("port", Value.scalar (Scalar.int 12202)),
   ("buffer_size", Value.scalar (Scalar.int 5))]

/-- The scenario's section completed with the fields the derived `Config`
deserializer requires: `level`, `null_character` and `additional_fields`. -/
def completedSection : List (String × Value) :=
  minimalSection ++
    [("level", Value.vstr "info"),
     ("null_character", Value.scalar (Scalar.bool true)),
     ("additional_fields", Value.map [])]

/-- The `Config` value the completed section parses to. -/
def completedConfig : Config :=
  { level := Level.info
    hostname := "localhost"
    port := 12202
    null_character := true
    buffer_size := some 5
    additional_fields := []
    connect_timeout := none
    write_timeout := none }

/-- C4 counterexample: the section holding only `hostname`, `port` and
`buffer_size` is rejected by the derived `Config` deserializer — `level`,
`null_character` and `additional_fields` are required fields — so it produces
no `Config` and hence no Appender at all. -/
theorem minimal_section_rejected :
    parseConfig minimalSection = Except.error "missing field level" := rfl

/-- C4 as amended: once the serde-required fields `level`, `null_character`
and `additional_fields` are also supplied, the section parses, the resulting
builder reports hostname `localhost`, port `12202`, `buffer_size = 5`, every
builder field not settable from the section or absent from it stays at the
documented default, and the deserializer is registered in `deserializers()`
under the discriminator `"buffer"`. -/
theorem completed_section_deserializes :
    parseConfig completedSection = Except.ok completedConfig ∧
    (deserializeBuilder completedConfig).hostname = "localhost" ∧
    (deserializeBuilder completedConfig).port = 12202 ∧
    (deserializeBuilder completedConfig).buffer_size = some 5 ∧
    (deserializeBuilder completedConfig).use_tls = BufferAppenderBuilder.default.use_tls ∧
    (deserializeBuilder completedConfig).async_buffer_size =
      BufferAppenderBuilder.default.async_buffer_size ∧
    (deserializeBuilder completedConfig).buffer_duration =
      BufferAppenderBuilder.default.buffer_duration ∧
    (deserializeBuilder completedConfig).connect_timeout =
      BufferAppenderBuilder.default.connect_timeout ∧
    (deserializeBuilder completedConfig).write_timeout =
      BufferAppenderBuilder.default.write_timeout ∧
    (deserializeBuilder completedConfig).additional_fields =
      BufferAppenderBuilder.default.additional_fields ∧
    lookupAL deserializers "buffer" = some AppenderDeserializerId.bufferAppender :=
  ⟨rfl, rfl, rfl, rfl, rfl, rfl, rfl, rfl, rfl, rfl, rfl⟩

/-- The completed section with a `buffer_duration: 250` entry added. -/
def sectionWithBufferDuration : List (String × Value) :=
  completedSection ++ [("buffer_duration", Value.scalar (Scalar.int 250))]

/-- C5 counterexample: a section carrying `buffer_duration: 250` is accepted,
but it parses to the very same `Config` as without the key — `Config` has no
`buffer_duration` field, serde ignores the unknown key — and the resulting
builder's `buffer_duration` is the 500 ms default, not 250 ms. -/
theorem buffer_duration_key_ignored :
    parseConfig sectionWithBufferDuration = Except.ok completedConfig ∧
    (deserializeBuilder completedConfig).buffer_duration =
      some (Duration.fromMillis 500) ∧
    some (Duration.fromMillis 500) ≠ some (Duration.fromMillis 250) :=
  ⟨rfl, rfl, by decide⟩

/-- C5 as amended: the declarative config section does not recognize a
`buffer_duration` key — a section providing one is accepted with the key
silently ignored, and the Appender's `buffer_duration` stays at the builder's
default. -/
theorem buffer_duration_stays_default :
    parseConfig sectionWithBufferDuration =
      parseConfig completedSection ∧
    parseConfig sectionWithBufferDuration = Except.ok completedConfig ∧
    (deserializeBuilder completedConfig).buffer_duration =
      BufferAppenderBuilder.default.buffer_duration :=
  ⟨rfl, rfl, rfl⟩

end LogGelf
